import Mathlib

/-!
Verification of the RAG (retrieval-augmented generation) pipeline of this
repository: a shallow embedding of the two Streamlit applications
`app_new.py` and `app_gdrive.py`, each of which defines a `RAGSystem`
class orchestrating document loading, chunking, vector indexing,
persistence and conversational question answering.

External library components (the FAISS vector index, the
`RecursiveCharacterTextSplitter` chunker, and the
`ConversationalRetrievalChain`) are modelled from the specification's
description of their interface contracts; the orchestration logic
(`load_documents`, `create_vectorstore`, `load_vectorstore`, `query`,
the Google-Drive loader) is translated directly from the Python source.
-/

set_option autoImplicit false

namespace RAG

/-! ## Data model -/

/-- One page of extracted text, as produced by `PyPDFLoader.load()` with the
`source` metadata field set by `load_documents` and the page number set by the
loader. -/
structure Page where
  text : String
  source : String
  page : Nat
deriving DecidableEq

/-- A chunk produced by the text splitter: a text span inheriting its page's
metadata. -/
structure Chunk where
  text : String
  source : String
  page : Nat
deriving DecidableEq

/-- One durable index entry: embedding vector, chunk text, metadata.
Vectors are modelled as integer lists (the embedding model is an opaque
external service; only vector identity and distance comparisons matter). -/
structure Entry where
  vec : List Int
  text : String
  source : String
  page : Nat
deriving DecidableEq

/-- Modelled from the spec: the FAISS vector store is the set of its index
entries kept in insertion order (FAISS itself is an external library; the spec
describes the index as "the set of all Index Entries", append-only). -/
structure Index where
  entries : List Entry
deriving DecidableEq

/-- One conversation turn held by `ConversationBufferMemory`. -/
inductive Turn where
  | user (text : String)
  | assistant (text : String) (sources : List Chunk)
deriving DecidableEq

/-- Failure of a document loader on malformed bytes. -/
inductive LoadError where
  | malformed
deriving DecidableEq

/-- Failure of the remote completion call. -/
inductive SynthesisError where
  | remoteFailure
deriving DecidableEq

/-- Missing persisted snapshot at a storage location. -/
inductive NotFoundError where
  | missing
deriving DecidableEq

/-- Empty ingestion: the spec's `build` rejects an empty entry list. -/
inductive EmptyInputError where
  | empty
deriving DecidableEq

/-! ## Chunker

Modelled from the spec: `RecursiveCharacterTextSplitter(chunk_size=1000,
chunk_overlap=200, separators=["\n\n", "\n", " ", ""])` is an external
library component; the spec describes it as: within each page's text,
greedily cut at the largest available separator boundary (paragraph break,
then line break, then space, then character) not exceeding `chunk_size`;
each subsequent chunk begins `chunk_overlap` characters before the previous
chunk's end. -/

/-- Position `p` is a paragraph-break boundary: the two characters ending at
`p` are a blank line. -/
def paraAt (cs : List Char) (p : Nat) : Bool :=
  decide (2 ≤ p) && ((cs.drop (p - 2)).take 2 == ['\n', '\n'])

/-- Position `p` is a boundary ending in the single character `c`. -/
def charBoundary (cs : List Char) (c : Char) (p : Nat) : Bool :=
  decide (1 ≤ p) && ((cs.drop (p - 1)).take 1 == [c])

/-- Largest position `p` with `lo < p ≤ hi` satisfying `cond`, if any. -/
def lastPosLe (cond : Nat → Bool) (lo : Nat) : Nat → Option Nat
  | 0 => none
  | hi + 1 =>
    if lo < hi + 1 && cond (hi + 1) then some (hi + 1) else lastPosLe cond lo hi

/-- The greedy cut position for a text longer than `size`: the largest
separator boundary not exceeding `size` (and past the `overlap` lower bound,
so the algorithm always advances), preferring paragraph breaks, then line
breaks, then spaces, and finally cutting at `size` itself (character-level
separator). -/
def cutPos (size overlap : Nat) (cs : List Char) : Nat :=
  match lastPosLe (paraAt cs) overlap size with
  | some p => p
  | none =>
    match lastPosLe (charBoundary cs '\n') overlap size with
    | some p => p
    | none =>
      match lastPosLe (charBoundary cs ' ') overlap size with
      | some p => p
      | none => size

/-- Fuel-indexed chunking loop: a text not exceeding `size` is one chunk;
otherwise cut at the greedy boundary and continue `overlap` characters before
the cut. -/
def chunkGo (size overlap : Nat) : Nat → List Char → List (List Char)
  | 0, _ => []
  | fuel + 1, cs =>
    if cs.length ≤ size then [cs]
    else
      let p := cutPos size overlap cs
      cs.take p :: chunkGo size overlap fuel (cs.drop (p - overlap))

/-- Split one page text into chunk texts. -/
def chunkText (size overlap : Nat) (s : String) : List String :=
  (chunkGo size overlap (s.data.length + 1) s.data).map (fun cs => String.mk cs)

/-- `text_splitter.split_documents(documents)`: chunk each page, every chunk
inheriting its page's metadata. -/
def splitDocuments (size overlap : Nat) (docs : List Page) : List Chunk :=
  docs.flatMap (fun pg =>
    (chunkText size overlap pg.text).map (fun t => ⟨t, pg.source, pg.page⟩))

/-! ## Vector index operations (modelled from the spec) -/

/-- Modelled from the spec: `build(entries)` constructs a new index; fails
with `EmptyInputError` if entries is empty. -/
def buildIndex (entries : List Entry) : Except EmptyInputError Index :=
  if entries.isEmpty then Except.error EmptyInputError.empty else Except.ok ⟨entries⟩

/-- Modelled from the spec: `merge(existing, incoming)` (FAISS `merge_from`)
combines two indexes into the union of their entries, preserving all of both,
incoming entries appended after existing ones. -/
def mergeIndex (existing incoming : Index) : Index :=
  ⟨existing.entries ++ incoming.entries⟩

/-- Squared L2 distance between two vectors. -/
def sqDist (q v : List Int) : Int :=
  (List.zipWith (fun a b => (a - b) * (a - b)) q v).foldl (· + ·) 0

/-- Ranking order: smaller distance first, ties broken by insertion order. -/
def rankLe (x y : Int × Nat) : Bool :=
  x.1 < y.1 || (x.1 == y.1 && decide (x.2 ≤ y.2))

/-- Insertion into a list sorted by `rankLe` on the key component. -/
def insertRanked (x : (Int × Nat) × Entry) :
    List ((Int × Nat) × Entry) → List ((Int × Nat) × Entry)
  | [] => [x]
  | y :: ys => if rankLe x.1 y.1 then x :: y :: ys else y :: insertRanked x ys

/-- Insertion sort by `rankLe` on the key component. -/
def rankSort : List ((Int × Nat) × Entry) → List ((Int × Nat) × Entry)
  | [] => []
  | x :: xs => insertRanked x (rankSort xs)

/-- Modelled from the spec: `search(index, query_vector, k)` returns up to
`k` entries ordered from most to least similar (here: nondecreasing squared
L2 distance), ties broken by insertion order. -/
def searchIndex (idx : Index) (q : List Int) (k : Nat) : List Entry :=
  ((rankSort (idx.entries.enum.map
      (fun pe => ((sqDist q pe.2.vec, pe.1), pe.2)))).map (fun pe => pe.2)).take k

/-! ## Durable storage (modelled from the spec) -/

/-- Modelled from the spec: durable index storage is a map from storage
locations to optional snapshots (`FAISS.save_local` / `FAISS.load_local` are
external library calls). -/
def Storage := String → Option Index

/-- `save_local`: write a snapshot at the location. -/
def saveIndex (st : Storage) (loc : String) (idx : Index) : Storage :=
  fun l => if l = loc then some idx else st l

/-- `load_local`: read a snapshot, failing with `NotFoundError` if absent. -/
def loadIndex (st : Storage) (loc : String) : Except NotFoundError Index :=
  match st loc with
  | some idx => Except.ok idx
  | none => Except.error NotFoundError.missing

/-! ## Embedding chunks into entries -/

/-- `FAISS.from_documents`: one entry per chunk, vector given by the (opaque)
embedding function, in chunk order. -/
def entryOfChunk (embed : String → List Int) (c : Chunk) : Entry :=
  ⟨embed c.text, c.text, c.source, c.page⟩

/-- Projection of an entry back to its chunk (metadata-preserving). -/
def chunkOfEntry (e : Entry) : Chunk :=
  ⟨e.text, e.source, e.page⟩

/-- The index built by `FAISS.from_documents` from a chunk list. -/
def indexFromChunks (embed : String → List Int) (cs : List Chunk) : Index :=
  ⟨cs.map (entryOfChunk embed)⟩

/-! ## Document loading

Each application loads PDFs in a sequential loop with no per-document
exception handler; a loader failure aborts the loop.  The loader itself
(`PyPDFLoader`) is an opaque parameter `loadOne` returning either that
file's pages or a `LoadError`. -/

/-- The shared sequential loading loop: pages of each file are appended in
order; the first loader failure aborts the whole loop (there is no
per-document `try`/`except` in either application). -/
def loadLoop (loadOne : String → Except LoadError (List Page)) :
    List String → Except LoadError (List Page)
  | [] => Except.ok []
  | f :: fs => do
    let docs ← loadOne f
    let rest ← loadLoop loadOne fs
    pure (docs ++ rest)

/-! ## `app_new.py` orchestrator (`RAGSystem`) -/

namespace AppNew

/-- The mutable fields of `app_new.py`'s `RAGSystem` relevant to the
pipeline, plus the durable snapshot storage it writes to. -/
structure SysState where
  vectorstore : Option RAG.Index
  memory : Option (List RAG.Turn)
  storage : RAG.Storage

/-- `RAGSystem.load_documents` (`app_new.py` lines 80-104): loop over the
uploaded files, `PyPDFLoader(...).load()` each, tag metadata, extend the
accumulator.  No `try`/`except`: a loader exception propagates to the
caller. -/
def load_documents (loadOne : String → Except RAG.LoadError (List RAG.Page))
    (files : List String) : Except RAG.LoadError (List RAG.Page) :=
  RAG.loadLoop loadOne files

/-- `RAGSystem.create_vectorstore` (`app_new.py` lines 106-135): split the
documents with `chunk_size=1000, chunk_overlap=200`, build a FAISS index
from the splits; if a vectorstore already exists, `merge_from` the new one
into it, otherwise adopt the new one; save to `"vectorstore"`; return the
number of splits.  The conversation memory field is not touched. -/
def create_vectorstore (embed : String → List Int) (st : SysState)
    (docs : List RAG.Page) : SysState × Nat :=
  let splits := RAG.splitDocuments 1000 200 docs
  let incoming := RAG.indexFromChunks embed splits
  let vs := match st.vectorstore with
    | none => incoming
    | some old => RAG.mergeIndex old incoming
  ({ st with vectorstore := some vs,
             storage := RAG.saveIndex st.storage "vectorstore" vs },
   splits.length)

/-- `RAGSystem.load_vectorstore` (`app_new.py` lines 137-151): attempt
`FAISS.load_local("vectorstore", ...)` inside `try`, setting the
vectorstore field and returning `True`; on any exception return `False`
(the bare `except` never re-raises). -/
def load_vectorstore (st : SysState) : SysState × Bool :=
  match RAG.loadIndex st.storage "vectorstore" with
  | Except.ok idx => ({ st with vectorstore := some idx }, true)
  | Except.error _ => (st, false)

end AppNew

/-! ## `app_gdrive.py` orchestrator (`RAGSystem`) -/

namespace AppGdrive

/-- The mutable fields of `app_gdrive.py`'s `RAGSystem` relevant to the
pipeline, plus the durable snapshot storage it writes to. -/
structure SysState where
  vectorstore : Option RAG.Index
  memory : Option (List RAG.Turn)
  storage : RAG.Storage

/-- `RAGSystem.load_documents_from_gdrive` (`app_gdrive.py` lines 96-143):
list the folder's PDF items; if none, warn and return `[]`; otherwise
download and load each sequentially inside one `try` block that spans the
whole loop — any exception is caught there and the function returns `[]`,
discarding every sibling document's pages. -/
def load_documents_from_gdrive
    (loadOne : String → Except RAG.LoadError (List RAG.Page))
    (items : List String) : List RAG.Page :=
  if items.isEmpty then []
  else
    match RAG.loadLoop loadOne items with
    | Except.ok docs => docs
    | Except.error _ => []

/-- `RAGSystem.create_vectorstore` (`app_gdrive.py` lines 145-155): return 0
untouched if `documents` is empty; otherwise split with `chunk_size=1000,
chunk_overlap=200` and build a brand-new FAISS index from the splits alone
("Cria um novo vectorstore do zero"), replacing any existing index, then
save to `"vectorstore_gdrive"`.  The conversation memory field is not
touched. -/
def create_vectorstore (embed : String → List Int) (st : SysState)
    (docs : List RAG.Page) : SysState × Nat :=
  if docs.isEmpty then (st, 0)
  else
    let splits := RAG.splitDocuments 1000 200 docs
    let vs := RAG.indexFromChunks embed splits
    ({ st with vectorstore := some vs,
               storage := RAG.saveIndex st.storage "vectorstore_gdrive" vs },
     splits.length)

/-- `RAGSystem.load_vectorstore` (`app_gdrive.py` lines 157-166): return
`False` if the storage path does not exist or is empty; otherwise attempt
`FAISS.load_local` inside `try`, returning `True` on success and `False`
(after showing the error) on exception. -/
def load_vectorstore (st : SysState) : SysState × Bool :=
  if (st.storage "vectorstore_gdrive").isNone then (st, false)
  else
    match RAG.loadIndex st.storage "vectorstore_gdrive" with
    | Except.ok idx => ({ st with vectorstore := some idx }, true)
    | Except.error _ => (st, false)

end AppGdrive

/-! ## Query path

`RAGSystem.query` is byte-for-byte the same logic in both applications
(`app_new.py` lines 215-221, `app_gdrive.py` lines 187-190): if
`self.qa_chain is None`, return the sentinel `(None, [])`; otherwise invoke
the chain and return `(answer, source_documents)`.

The chain itself (`ConversationalRetrievalChain` with
`ConversationBufferMemory`) is an external library component, modelled from
the spec: retrieve the top-k entries for the question's embedding, build
the grounded prompt from the `PromptTemplate` of `setup_qa_chain`, call the
completion model, and on success return the answer together with exactly
the retrieved chunks; on success both the user turn and the assistant turn
are appended to memory, on failure memory is untouched. -/

/-- Concatenation of the retrieved chunk texts forming the `{context}`
variable of the prompt. -/
def contextOf (chunks : List Chunk) : String :=
  String.intercalate "\n\n" (chunks.map Chunk.text)

/-- The prompt of `setup_qa_chain`'s `PromptTemplate` (`app_new.py` lines
183-193) with its three variables substituted. -/
def promptOf (ctx history question : String) : String :=
  "Você é um assistente especializado da empresa.\n" ++
  "Use o contexto fornecido para responder à pergunta de forma precisa e profissional.\n" ++
  "Se não souber a resposta com base no contexto, diga claramente que não tem essa informação.\n\n" ++
  "Contexto: " ++ ctx ++ "\n\n" ++
  "Histórico da conversa: " ++ history ++ "\n\n" ++
  "Pergunta: " ++ question ++ "\n\n" ++
  "Resposta detalhada e profissional:"

/-- Modelled from the spec: one invocation of the retrieval chain built by
`setup_qa_chain` (`search_kwargs={"k": 4}` in the source; `k` kept
abstract): embed the question, retrieve the top-k chunks, send the grounded
prompt to the completion model `llm`, and return the answer paired with
exactly the retrieved chunks. -/
def run_chain (idx : Index) (embed : String → List Int)
    (llm : String → Except SynthesisError String) (k : Nat) (history : String)
    (question : String) : Except SynthesisError (String × List Chunk) :=
  let retrieved := (searchIndex idx (embed question) k).map chunkOfEntry
  (llm (promptOf (contextOf retrieved) history question)).map
    (fun ans => (ans, retrieved))

/-- `RAGSystem.query` of both applications, with the chain's effect on the
conversation memory made explicit (modelled from the spec: the chain
appends the user and assistant turns only after a successful completion
call; a synthesis failure leaves memory untouched).  With no chain
configured the method returns the sentinel `(None, [])` and never raises. -/
def query (chain : Option (String → Except SynthesisError (String × List Chunk)))
    (memory : List Turn) (question : String) :
    Except SynthesisError (Option String × List Chunk) × List Turn :=
  match chain with
  | none => (Except.ok (none, []), memory)
  | some run =>
    match run question with
    | Except.error e => (Except.error e, memory)
    | Except.ok (ans, srcs) =>
      (Except.ok (some ans, srcs),
       memory ++ [Turn.user question, Turn.assistant ans srcs])

/-! ## Concrete demonstration values -/

/-- A sample entry. -/
def e1 : Entry := ⟨[0], "a", "a.pdf", 0⟩

/-- A second sample entry. -/
def e2 : Entry := ⟨[1], "b", "b.pdf", 0⟩

/-- An entry standing for previously indexed content. -/
def oldEntry : Entry := ⟨[42], "old", "old.pdf", 0⟩

/-- A one-page document short enough to be a single chunk. -/
def pageHi : Page := ⟨"hi", "new.pdf", 0⟩

/-- A trivial embedding function for concrete evaluation. -/
def embed0 : String → List Int := fun _ => [0]

/-- An `app_new` session state that already holds an index with `oldEntry`. -/
def stN0 : AppNew.SysState := ⟨some ⟨[oldEntry]⟩, some [], fun _ => none⟩

/-- An `app_gdrive` session state that already holds an index with
`oldEntry`. -/
def stG0 : AppGdrive.SysState := ⟨some ⟨[oldEntry]⟩, some [], fun _ => none⟩

/-- A loader failing exactly on `"bad.pdf"` and yielding one page for any
other file. -/
def demoLoad : String → Except LoadError (List Page) := fun f =>
  if f = "bad.pdf" then Except.error LoadError.malformed
  else Except.ok [⟨"text of " ++ f, f, 0⟩]

/-- A completion model that always fails remotely. -/
def failLLM : String → Except SynthesisError String :=
  fun _ => Except.error SynthesisError.remoteFailure

/-- A completion model that always answers `"resp"`. -/
def okLLM : String → Except SynthesisError String :=
  fun _ => Except.ok "resp"

/-! ## Helper lemmas -/

/-- A position found by `lastPosLe` is at most the upper bound. -/
theorem lastPosLe_le (cond : Nat → Bool) (lo : Nat) :
    ∀ n p, lastPosLe cond lo n = some p → p ≤ n := by
  intro n
  induction n with
  | zero => intro p h; simp [lastPosLe] at h
  | succ m ih =>
    intro p h
    simp only [lastPosLe] at h
    split at h
    · cases h; exact Nat.le_refl _
    · exact Nat.le_trans (ih p h) (Nat.le_succ m)

/-- The greedy cut never exceeds `size`. -/
theorem cutPos_le (size overlap : Nat) (cs : List Char) :
    cutPos size overlap cs ≤ size := by
  unfold cutPos
  cases h1 : lastPosLe (paraAt cs) overlap size with
  | some p => exact lastPosLe_le _ _ _ _ h1
  | none =>
    cases h2 : lastPosLe (charBoundary cs '\n') overlap size with
    | some p => exact lastPosLe_le _ _ _ _ h2
    | none =>
      cases h3 : lastPosLe (charBoundary cs ' ') overlap size with
      | some p => exact lastPosLe_le _ _ _ _ h3
      | none => exact Nat.le_refl _

/-- Every chunk produced by the chunking loop has length at most `size`. -/
theorem chunkGo_length_le (size overlap : Nat) :
    ∀ fuel cs c, c ∈ chunkGo size overlap fuel cs → c.length ≤ size := by
  intro fuel
  induction fuel with
  | zero => intro cs c h; simp [chunkGo] at h
  | succ m ih =>
    intro cs c h
    simp only [chunkGo] at h
    by_cases hle : cs.length ≤ size
    · rw [if_pos hle] at h
      simp at h
      subst h
      exact hle
    · rw [if_neg hle] at h
      rcases List.mem_cons.mp h with h | h
      · subst h
        calc (cs.take (cutPos size overlap cs)).length
            ≤ cutPos size overlap cs := by
              rw [List.length_take]; exact Nat.min_le_left _ _
          _ ≤ size := cutPos_le size overlap cs
      · exact ih _ _ h

/-- A failing document aborts the sequential loading loop: with every file
before `f` loading fine and `f` failing, the whole loop fails. -/
theorem loadLoop_error (loadOne : String → Except LoadError (List Page))
    (pre : List String) (f : String) (fs : List String) (e : LoadError)
    (hpre : ∀ g ∈ pre, ∃ ds, loadOne g = Except.ok ds)
    (hf : loadOne f = Except.error e) :
    loadLoop loadOne (pre ++ f :: fs) = Except.error e := by
  induction pre with
  | nil =>
    show loadLoop loadOne (f :: fs) = Except.error e
    simp only [loadLoop, hf]
    rfl
  | cons g gs ih =>
    obtain ⟨ds, hg⟩ := hpre g (List.mem_cons_self g gs)
    have ih2 := ih (fun g₂ hg₂ => hpre g₂ (List.mem_cons_of_mem g hg₂))
    show loadLoop loadOne (g :: (gs ++ f :: fs)) = Except.error e
    simp only [loadLoop, hg, ih2]
    rfl

/-! ## Claim theorems -/

/-- C5: with `chunk_size=1000, chunk_overlap=200`, every chunk of a page
text has length at most 1000, and a page text not exceeding 1000 characters
yields exactly one chunk equal to the full text.  Determinism for fixed
input and configuration is immediate: `chunkText` is a pure function.  The
greedy largest-separator cut is the definition of `cutPos` itself. -/
theorem chunking_bounds_and_singleton (s : String) :
    (∀ c ∈ chunkText 1000 200 s, c.length ≤ 1000) ∧
    (s.length ≤ 1000 → chunkText 1000 200 s = [s]) := by
  constructor
  · intro c hc
    simp only [chunkText, List.mem_map] at hc
    obtain ⟨cs, hmem, rfl⟩ := hc
    exact chunkGo_length_le 1000 200 _ _ _ hmem
  · intro hs
    have hlen : s.data.length ≤ 1000 := hs
    simp only [chunkText, chunkGo, if_pos hlen, List.map]

/-- C5 witness: a concrete short page is one chunk of bounded length. -/
theorem chunking_bounds_and_singleton_witness :
    chunkText 1000 200 "hello" = ["hello"] ∧ ("hello" : String).length ≤ 1000 :=
  ⟨(chunking_bounds_and_singleton "hello").2 (by decide),
   (chunking_bounds_and_singleton "hello").1 "hello" (by decide)⟩

/-- C1 counterexample: in `app_gdrive.py`, re-ingesting while an index
already exists does not merge — `create_vectorstore` replaces the index
with one built from the new documents alone, and the previously indexed
entry `oldEntry` is gone afterwards, refuting "preserving every previously
indexed entry". -/
theorem gdrive_reingest_drops_old_entry :
    (AppGdrive.create_vectorstore embed0 stG0 [pageHi]).1.vectorstore =
      some (indexFromChunks embed0 [⟨"hi", "new.pdf", 0⟩]) ∧
    oldEntry ∉
      (((AppGdrive.create_vectorstore embed0 stG0 [pageHi]).1.vectorstore.getD
        ⟨[]⟩).entries) := by
  constructor
  · rfl
  · decide

/-- C1 (amended): in `app_new.py`, `create_vectorstore` on an existing index
merges the new documents' entries in, preserving every previously indexed
entry (the result is the union, old entries first) and leaving the
conversation memory untouched; in `app_gdrive.py`, `create_vectorstore`
instead rebuilds the index from the new documents alone, discarding
previously indexed entries, though it likewise never touches the
conversation memory. -/
theorem create_vectorstore_merge_vs_rebuild
    (embed : String → List Int)
    (stN : AppNew.SysState) (old : Index) (docsN : List Page)
    (hN : stN.vectorstore = some old)
    (stG : AppGdrive.SysState) (docsG : List Page) (hG : docsG ≠ []) :
    ((AppNew.create_vectorstore embed stN docsN).1.vectorstore =
        some (mergeIndex old (indexFromChunks embed (splitDocuments 1000 200 docsN))) ∧
      (∀ e ∈ old.entries,
        e ∈ ((AppNew.create_vectorstore embed stN docsN).1.vectorstore.getD
          ⟨[]⟩).entries) ∧
      (AppNew.create_vectorstore embed stN docsN).1.memory = stN.memory) ∧
    ((AppGdrive.create_vectorstore embed stG docsG).1.vectorstore =
        some (indexFromChunks embed (splitDocuments 1000 200 docsG)) ∧
      (AppGdrive.create_vectorstore embed stG docsG).1.memory = stG.memory) := by
  refine ⟨⟨?_, ?_, ?_⟩, ?_, ?_⟩
  · simp [AppNew.create_vectorstore, hN]
  · intro e he
    simp [AppNew.create_vectorstore, hN, mergeIndex]
    exact Or.inl he
  · simp [AppNew.create_vectorstore]
  · simp [AppGdrive.create_vectorstore, List.isEmpty_eq_true.not.mpr hG]
  · simp [AppGdrive.create_vectorstore, List.isEmpty_eq_true.not.mpr hG]

/-- C1 witness: the amended behavior at a concrete re-ingestion. -/
theorem create_vectorstore_merge_vs_rebuild_witness :
    stN0.vectorstore = some ⟨[oldEntry]⟩ ∧ ([pageHi] : List Page) ≠ [] ∧
    (((AppNew.create_vectorstore embed0 stN0 [pageHi]).1.vectorstore =
        some (mergeIndex ⟨[oldEntry]⟩
          (indexFromChunks embed0 (splitDocuments 1000 200 [pageHi]))) ∧
      (∀ e ∈ (Index.mk [oldEntry]).entries,
        e ∈ ((AppNew.create_vectorstore embed0 stN0 [pageHi]).1.vectorstore.getD
          ⟨[]⟩).entries) ∧
      (AppNew.create_vectorstore embed0 stN0 [pageHi]).1.memory = stN0.memory) ∧
    ((AppGdrive.create_vectorstore embed0 stG0 [pageHi]).1.vectorstore =
        some (indexFromChunks embed0 (splitDocuments 1000 200 [pageHi])) ∧
      (AppGdrive.create_vectorstore embed0 stG0 [pageHi]).1.memory = stG0.memory)) :=
  ⟨rfl, by decide,
   create_vectorstore_merge_vs_rebuild embed0 stN0 ⟨[oldEntry]⟩ [pageHi] rfl
     stG0 [pageHi] (by decide)⟩

/-- C2 counterexample: `query` called before any initialization (no QA
chain) does not fail with any error — it returns the sentinel
`(None, [])` silently, refuting "fails with NotReadyError rather than
returning silently". -/
theorem query_before_init_returns_sentinel :
    query (none : Option (String → Except SynthesisError (String × List Chunk)))
        [] "What is X?" =
      (Except.ok ((none : Option String), ([] : List Chunk)), ([] : List Turn)) :=
  rfl

/-- C2 (amended): when no QA chain is configured (`uninitialized` or
`indexed` state), `query` returns the sentinel `(None, [])` without
raising, and the conversation memory is left unchanged (in particular an
empty memory stays empty). -/
theorem query_uninitialized_sentinel (mem : List Turn) (q : String) :
    query (none : Option (String → Except SynthesisError (String × List Chunk)))
        mem q = (Except.ok (none, []), mem) ∧
    (query (none : Option (String → Except SynthesisError (String × List Chunk)))
        mem q).2 = mem :=
  ⟨rfl, rfl⟩

/-- C3: merging the indexes built from batches `A` and `B` yields an index
whose search results agree (here: exactly, not merely up to tie-break) with
the index built directly from `A ++ B`, for every query and every `k`. -/
theorem merge_build_search_eq (A B : List Entry) (q : List Int) (k : Nat)
    (hA : A ≠ []) (hB : B ≠ []) :
    ∃ iA iB iAB, buildIndex A = Except.ok iA ∧ buildIndex B = Except.ok iB ∧
      buildIndex (A ++ B) = Except.ok iAB ∧
      searchIndex (mergeIndex iA iB) q k = searchIndex iAB q k := by
  refine ⟨⟨A⟩, ⟨B⟩, ⟨A ++ B⟩, ?_, ?_, ?_, rfl⟩ <;>
    simp [buildIndex, List.isEmpty_eq_true, hA, hB]

/-- C3 witness: the merge/build agreement at two concrete singleton
batches. -/
theorem merge_build_search_eq_witness :
    ([e1] : List Entry) ≠ [] ∧ ([e2] : List Entry) ≠ [] ∧
    (∃ iA iB iAB, buildIndex [e1] = Except.ok iA ∧
      buildIndex [e2] = Except.ok iB ∧
      buildIndex ([e1] ++ [e2]) = Except.ok iAB ∧
      searchIndex (mergeIndex iA iB) [0] 2 = searchIndex iAB [0] 2) :=
  ⟨by decide, by decide, merge_build_search_eq [e1] [e2] [0] 2 (by decide) (by decide)⟩

/-- C4: saving an index at a location and loading it back yields the very
same index, hence identical search results for every query and every `k`. -/
theorem save_load_round_trip (s : Storage) (loc : String) (idx : Index)
    (q : List Int) (k : Nat) :
    loadIndex (saveIndex s loc idx) loc = Except.ok idx ∧
    (loadIndex (saveIndex s loc idx) loc).map (fun i => searchIndex i q k) =
      Except.ok (searchIndex idx q k) := by
  have h : loadIndex (saveIndex s loc idx) loc = Except.ok idx := by
    simp [loadIndex, saveIndex]
  exact ⟨h, by rw [h]; rfl⟩

/-- C6 counterexample: with a loader failing on `"bad.pdf"`, a three-file
batch does not isolate the failure — `app_new`'s `load_documents`
propagates the error (no sibling pages are returned at all) and
`app_gdrive`'s loader returns the empty list, refuting "the remaining
documents in the batch are still loaded and contribute their pages". -/
theorem load_error_not_isolated :
    AppNew.load_documents demoLoad ["a.pdf", "bad.pdf", "c.pdf"] =
      Except.error LoadError.malformed ∧
    AppGdrive.load_documents_from_gdrive demoLoad ["a.pdf", "bad.pdf", "c.pdf"] =
      [] := by
  constructor <;> rfl

/-- C6 (amended): a `LoadError` on one document aborts the whole batch
instead of being isolated: `app_new.py`'s `load_documents` (which has no
per-document exception handler) propagates the error to its caller so no
document's pages are returned, and `app_gdrive.py`'s
`load_documents_from_gdrive` (whose handler wraps the whole loop) returns
the empty list, discarding the sibling documents' contributions as well. -/
theorem load_error_aborts_batch
    (loadOne : String → Except LoadError (List Page))
    (pre : List String) (f : String) (fs : List String) (e : LoadError)
    (hpre : ∀ g ∈ pre, ∃ ds, loadOne g = Except.ok ds)
    (hf : loadOne f = Except.error e) :
    AppNew.load_documents loadOne (pre ++ f :: fs) = Except.error e ∧
    AppGdrive.load_documents_from_gdrive loadOne (pre ++ f :: fs) = [] := by
  have herr := loadLoop_error loadOne pre f fs e hpre hf
  constructor
  · exact herr
  · have hne : (pre ++ f :: fs).isEmpty = false := by cases pre <;> rfl
    simp [AppGdrive.load_documents_from_gdrive, hne, herr]

/-- C6 witness: the abort behavior at a concrete three-file batch. -/
theorem load_error_aborts_batch_witness :
    demoLoad "bad.pdf" = Except.error LoadError.malformed ∧
    (AppNew.load_documents demoLoad (["a.pdf"] ++ "bad.pdf" :: ["c.pdf"]) =
        Except.error LoadError.malformed ∧
      AppGdrive.load_documents_from_gdrive demoLoad
        (["a.pdf"] ++ "bad.pdf" :: ["c.pdf"]) = []) :=
  ⟨rfl,
   load_error_aborts_batch demoLoad ["a.pdf"] "bad.pdf" ["c.pdf"]
     LoadError.malformed
     (fun g hg => by
       simp only [List.mem_singleton] at hg
       subst hg
       exact ⟨[⟨"text of a.pdf", "a.pdf", 0⟩], rfl⟩)
     rfl⟩

/-- C7: a synthesis failure during `query` on a ready system surfaces the
error and leaves the conversation memory unchanged — no turn is appended,
the memory length after the failed query equals the length before. -/
theorem failed_synthesis_preserves_memory
    (run : String → Except SynthesisError (String × List Chunk))
    (mem : List Turn) (q : String) (e : SynthesisError)
    (h : run q = Except.error e) :
    query (some run) mem q = (Except.error e, mem) ∧
    (query (some run) mem q).2.length = mem.length := by
  simp [query, h]

/-- C7 witness: a concrete failing completion call leaves a one-turn memory
at length one. -/
theorem failed_synthesis_preserves_memory_witness :
    run_chain ⟨[e1]⟩ embed0 failLLM 4 "" "q" =
      Except.error SynthesisError.remoteFailure ∧
    (query (some (run_chain ⟨[e1]⟩ embed0 failLLM 4 "")) [Turn.user "hi"] "q" =
        (Except.error SynthesisError.remoteFailure, [Turn.user "hi"]) ∧
      (query (some (run_chain ⟨[e1]⟩ embed0 failLLM 4 "")) [Turn.user "hi"]
          "q").2.length = [Turn.user "hi"].length) :=
  ⟨rfl,
   failed_synthesis_preserves_memory (run_chain ⟨[e1]⟩ embed0 failLLM 4 "")
     [Turn.user "hi"] "q" SynthesisError.remoteFailure rfl⟩

/-- C8: on a successful query, the sources returned are exactly the ordered
chunk sequence that was retrieved and placed in the prompt sent to the
completion model, and the answer is the model's reply to that very
prompt. -/
theorem query_sources_are_retrieved
    (idx : Index) (embed : String → List Int)
    (llm : String → Except SynthesisError String) (k : Nat)
    (history : String) (mem : List Turn) (q a : String)
    (h : llm (promptOf
        (contextOf ((searchIndex idx (embed q) k).map chunkOfEntry))
        history q) = Except.ok a) :
    query (some (run_chain idx embed llm k history)) mem q =
      (Except.ok (some a, (searchIndex idx (embed q) k).map chunkOfEntry),
       mem ++ [Turn.user q,
               Turn.assistant a ((searchIndex idx (embed q) k).map chunkOfEntry)]) := by
  simp only [query, run_chain, h]
  rfl

/-- C8 witness: a concrete successful query returns exactly the retrieved
chunk as its source. -/
theorem query_sources_are_retrieved_witness :
    okLLM (promptOf
        (contextOf ((searchIndex ⟨[e1]⟩ (embed0 "q") 4).map chunkOfEntry))
        "" "q") = Except.ok "resp" ∧
    query (some (run_chain ⟨[e1]⟩ embed0 okLLM 4 "")) [] "q" =
      (Except.ok (some "resp", (searchIndex ⟨[e1]⟩ (embed0 "q") 4).map chunkOfEntry),
       [] ++ [Turn.user "q",
              Turn.assistant "resp"
                ((searchIndex ⟨[e1]⟩ (embed0 "q") 4).map chunkOfEntry)]) :=
  ⟨rfl,
   query_sources_are_retrieved ⟨[e1]⟩ embed0 okLLM 4 "" [] "q" "resp" rfl⟩

/-- C9: ingesting a Google-Drive folder that yields zero PDF files returns
the empty document set, and `create_vectorstore` on the empty document set
returns 0 and leaves the whole session state — vectorstore field and
durable storage included — unchanged, so the system does not transition to
`indexed`. -/
theorem empty_folder_no_ingestion
    (loadOne : String → Except LoadError (List Page))
    (embed : String → List Int) (st : AppGdrive.SysState) :
    AppGdrive.load_documents_from_gdrive loadOne [] = [] ∧
    AppGdrive.create_vectorstore embed st [] = (st, 0) :=
  ⟨rfl, rfl⟩

/-- C10: `load_vectorstore` of both applications is total (the model has no
error channel: every Python exception path is caught and turned into the
`False` return): it returns `True` after storing the loaded index in the
session state when a snapshot exists, and returns `False` with the whole
state — in particular the vectorstore field — unchanged when none does. -/
theorem load_vectorstore_behavior (stN : AppNew.SysState)
    (stG : AppGdrive.SysState) :
    (stN.storage "vectorstore" = none →
      AppNew.load_vectorstore stN = (stN, false)) ∧
    (∀ idx, stN.storage "vectorstore" = some idx →
      AppNew.load_vectorstore stN = ({ stN with vectorstore := some idx }, true)) ∧
    (stG.storage "vectorstore_gdrive" = none →
      AppGdrive.load_vectorstore stG = (stG, false)) ∧
    (∀ idx, stG.storage "vectorstore_gdrive" = some idx →
      AppGdrive.load_vectorstore stG =
        ({ stG with vectorstore := some idx }, true)) := by
  refine ⟨?_, ?_, ?_, ?_⟩
  · intro h; simp [AppNew.load_vectorstore, loadIndex, h]
  · intro idx h; simp [AppNew.load_vectorstore, loadIndex, h]
  · intro h; simp [AppGdrive.load_vectorstore, loadIndex, h]
  · intro idx h; simp [AppGdrive.load_vectorstore, loadIndex, h]

/-- C10 witness: concrete failure (empty storage) and success (stored
snapshot) runs of both loaders. -/
theorem load_vectorstore_behavior_witness :
    (stN0.storage "vectorstore" = none ∧
      AppNew.load_vectorstore stN0 = (stN0, false)) ∧
    (stG0.storage "vectorstore_gdrive" = none ∧
      AppGdrive.load_vectorstore stG0 = (stG0, false)) :=
  ⟨⟨rfl, (load_vectorstore_behavior stN0 stG0).1 rfl⟩,
   ⟨rfl, (load_vectorstore_behavior stN0 stG0).2.2.1 rfl⟩⟩

end RAG

